import Mathlib

/-!
Shallow embedding of the dapper state primitive
(src/lib/createStateWith.ts: the State class and the createStateWith
function) and proofs about its observable behaviour.

JavaScript runtime values are modelled by an inductive type carrying
just enough structure for the typeof operator, the strict
(in)equality operator and template-literal string conversion:
numbers distinguish NaN from finite values (NaN is strictly unequal
to itself), objects and functions carry a reference identifier so
that strict equality is reference identity, and null is a separate
value whose typeof tag is "object".
-/

/-- A JavaScript number, as far as strict equality is concerned:
either NaN (strictly unequal to every number, itself included) or a
finite value. -/
inductive JSNum where
  | nan
  | fin (i : Int)
deriving Repr, DecidableEq

/-- A JavaScript runtime value. Objects carry a reference identifier
and the name of their class so distinct instances compare unequal
under strict equality; functions carry a reference identifier. -/
inductive JSValue where
  | num (n : JSNum)
  | str (s : String)
  | bool (b : Bool)
  | undef
  | null
  | obj (id : Nat) (cls : String)
  | fn (id : Nat)
deriving Repr, DecidableEq

/-- Strict equality on numbers: NaN === x is false for every x. -/
def numEq : JSNum → JSNum → Bool
  | .nan, _ => false
  | .fin _, .nan => false
  | .fin a, .fin b => a == b

/-- JavaScript strict equality (the === operator); the source uses
its negation !== for change detection. Reference values compare by
identity. -/
def jsEq : JSValue → JSValue → Bool
  | .num a, .num b => numEq a b
  | .str a, .str b => a == b
  | .bool a, .bool b => a == b
  | .undef, .undef => true
  | .null, .null => true
  | .obj i c, .obj j d => i == j && c == d
  | .fn i, .fn j => i == j
  | _, _ => false

/-- The JavaScript typeof operator. Note typeof null is "object". -/
def typeofJS : JSValue → String
  | .num _ => "number"
  | .str _ => "string"
  | .bool _ => "boolean"
  | .undef => "undefined"
  | .null => "object"
  | .obj _ _ => "object"
  | .fn _ => "function"

/-- String conversion as performed by a template literal. A plain
object converts with the default Object prototype toString. -/
def jsToString : JSValue → String
  | .num .nan => "NaN"
  | .num (.fin i) => toString i
  | .str s => s
  | .bool true => "true"
  | .bool false => "false"
  | .undef => "undefined"
  | .null => "null"
  | .obj _ _ => "[object Object]"
  | .fn _ => "function"

/-- The two error kinds the library surfaces: ValidationError from
set, InstanceError from createStateWith. Errors are opaque beyond
their kind and message. -/
inductive JSError where
  | validationError (msg : String)
  | instanceError (msg : String)
deriving Repr, DecidableEq

/-- The State class of src/lib/createStateWith.ts: one stored value
and an optional onChange callback. The callback itself is caller
code; the embedding records only whether one is registered (the
source guards the invocation with a truthiness test on this.onChange)
and models each invocation as an observable event. -/
structure State where
  value : JSValue
  onChange : Bool
deriving Repr, DecidableEq

/-- State.get: returns the stored value. -/
def State.get (s : State) : JSValue :=
  s.value

/-- State.verifyValue, translated line by line from the source:
compute the typeof of the incoming value and of the stored value;
if they differ, throw a ValidationError whose message spells the
word received as "recieved" exactly as the source does; otherwise
report whether the value changed, via strict inequality
this.value !== newValue. -/
def State.verifyValue (s : State) (newValue : JSValue) : Except JSError Bool :=
  let recievedType := typeofJS newValue
  let valueType := typeofJS s.value
  if typeofJS newValue ≠ valueType then
    .error (.validationError
      ("Expected type of " ++ valueType ++ " but recieved " ++ recievedType))
  else
    .ok (!(jsEq s.value newValue))

/-- Behaviour of the registered onChange callback when it is
invoked: it either returns normally or throws an exception. -/
inductive CbResult where
  | ok
  | throws (e : JSError)
deriving Repr, DecidableEq

/-- Everything observable about one call to State.set: the cell
state when the call completes, the list of onChange invocations
(argument passed, and the cell state visible to the callback at the
moment of invocation, so that a get from inside the callback can be
read off), and the exception propagated to the caller, if any. -/
structure SetOutcome where
  cell : State
  calls : List (JSValue × State)
  error : Option JSError
deriving Repr, DecidableEq

/-- State.set, translated from the source: if verifyValue throws,
the exception propagates and nothing happens; if it reports no
change, return silently; otherwise assign this.value = newValue and
then, if an onChange callback is registered, invoke it once with
this.value (read after the assignment). The cb argument supplies
the callback behaviour for that one invocation; when the callback
throws, the exception propagates out of set but the assignment has
already been committed. -/
def State.set (s : State) (cb : CbResult) (newValue : JSValue) : SetOutcome :=
  match s.verifyValue newValue with
  | .error e => { cell := s, calls := [], error := some e }
  | .ok changed =>
      if changed then
        let s' : State := { s with value := newValue }
        if s'.onChange then
          { cell := s'
            calls := [(s'.value, s')]
            error := match cb with | .ok => none | .throws e => some e }
        else
          { cell := s', calls := [], error := none }
      else
        { cell := s, calls := [], error := none }

/-- An argument passed to createStateWith: either a genuine instance
of the State class (or of a subclass, which instanceof also
accepts), or any other runtime value, including a plain object that
merely exposes get and set methods. instanceof inspects the
prototype chain, not the shape, so only the first alternative
satisfies it. -/
inductive ExtArg where
  | stateInst (cell : State)
  | nonState (v : JSValue)
deriving Repr, DecidableEq

/-- The instanceof State test performed by createStateWith. -/
def instanceofState : ExtArg → Bool
  | .stateInst _ => true
  | .nonState _ => false

/-- Everything observable about one call to createStateWith: the
returned value if the call returns, the list of arguments the
initial effect was invoked with, and the exception thrown, if
any. -/
structure BindResult where
  result : Option ExtArg
  effectCalls : List JSValue
  error : Option JSError
deriving Repr, DecidableEq

/-- createStateWith, translated from the source: if the argument is
an instance of the State class, invoke the initial effect (when one
was supplied) once with the current value obtained via get,
discarding its result, and return the very argument; otherwise
throw an InstanceError whose message interpolates the argument via
template-literal string conversion. -/
def createStateWith (extendedState : ExtArg) (hasInitalEffect : Bool) : BindResult :=
  match extendedState with
  | .stateInst cell =>
      if hasInitalEffect then
        { result := some (.stateInst cell), effectCalls := [cell.get], error := none }
      else
        { result := some (.stateInst cell), effectCalls := [], error := none }
  | .nonState v =>
      { result := none
        effectCalls := []
        error := some (.instanceError
          (jsToString v ++ " is not an instance of the State class.")) }

/-- Helper: strictly equal values have the same typeof tag. -/
theorem typeof_eq_of_jsEq (a b : JSValue) (h : jsEq a b = true) :
    typeofJS a = typeofJS b := by
  cases a <;> cases b <;> simp_all [jsEq, typeofJS]

/-- C1: for a cell with a registered onChange callback, set with a
value of matching typeof and strictly unequal to the current value
commits the assignment, invokes the callback exactly once with that
value and with the updated cell visible to it (so a get from inside
the callback observes the new value), throws nothing, and a
subsequent get returns the new value. -/
theorem set_change_notification (s : State) (v : JSValue)
    (hcb : s.onChange = true)
    (hty : typeofJS v = typeofJS s.value)
    (hne : jsEq s.value v = false) :
    (s.set .ok v).error = none ∧
    (s.set .ok v).cell.get = v ∧
    (s.set .ok v).calls = [(v, (s.set .ok v).cell)] := by
  simp [State.set, State.verifyValue, State.get, hty, hne, hcb]

/-- Witness for C1 at a concrete input: a number cell holding 5 with
a callback, set to 6. -/
theorem set_change_notification_witness :
    (State.mk (.num (.fin 5)) true).onChange = true ∧
    typeofJS (.num (.fin 6)) = typeofJS (State.mk (.num (.fin 5)) true).value ∧
    jsEq (State.mk (.num (.fin 5)) true).value (.num (.fin 6)) = false ∧
    (((State.mk (.num (.fin 5)) true).set .ok (.num (.fin 6))).error = none ∧
     ((State.mk (.num (.fin 5)) true).set .ok (.num (.fin 6))).cell.get = .num (.fin 6) ∧
     ((State.mk (.num (.fin 5)) true).set .ok (.num (.fin 6))).calls =
       [(.num (.fin 6), ((State.mk (.num (.fin 5)) true).set .ok (.num (.fin 6))).cell)]) :=
  ⟨rfl, rfl, rfl,
    set_change_notification (State.mk (.num (.fin 5)) true) (.num (.fin 6))
      rfl rfl rfl⟩

/-- C2: set with a value whose typeof differs from that of the
stored value throws a ValidationError-kind error, leaves the cell
(hence get) unchanged, and never invokes the callback, whatever the
callback would have done. -/
theorem set_type_mismatch (s : State) (cb : CbResult) (v : JSValue)
    (hty : typeofJS v ≠ typeofJS s.value) :
    (s.set cb v).cell = s ∧
    (s.set cb v).calls = [] ∧
    ∃ m, (s.set cb v).error = some (.validationError m) := by
  refine ⟨?_, ?_, ?_⟩ <;> simp [State.set, State.verifyValue, hty]

/-- Witness for C2 at a concrete input: a number cell refuses a
string. -/
theorem set_type_mismatch_witness :
    typeofJS (.str "x") ≠ typeofJS (State.mk (.num (.fin 5)) true).value ∧
    (((State.mk (.num (.fin 5)) true).set .ok (.str "x")).cell =
        State.mk (.num (.fin 5)) true ∧
     ((State.mk (.num (.fin 5)) true).set .ok (.str "x")).calls = [] ∧
     ∃ m, ((State.mk (.num (.fin 5)) true).set .ok (.str "x")).error =
        some (.validationError m)) :=
  ⟨by decide, set_type_mismatch (State.mk (.num (.fin 5)) true) .ok (.str "x") (by decide)⟩

/-- C3, counterexample: the claimed exact message spells "received",
but the source spells it "recieved", so on a number cell receiving a
string the actual error differs from the claimed one. -/
theorem set_error_message_counterexample :
    ((State.mk (.num (.fin 5)) false).set .ok (.str "x")).error ≠
      some (.validationError "Expected type of number but received string") := by
  decide

/-- C3, amended: on a typeof mismatch the error message is exactly
"Expected type of " ++ valueType ++ " but recieved " ++ recievedType,
with the misspelling "recieved" as in the source. -/
theorem set_error_message (s : State) (cb : CbResult) (v : JSValue)
    (hty : typeofJS v ≠ typeofJS s.value) :
    (s.set cb v).error = some (.validationError
      ("Expected type of " ++ typeofJS s.value ++ " but recieved " ++ typeofJS v)) := by
  simp [State.set, State.verifyValue, hty]

/-- Witness for the amended C3 at a concrete input. -/
theorem set_error_message_witness :
    typeofJS (.str "x") ≠ typeofJS (State.mk (.num (.fin 5)) false).value ∧
    ((State.mk (.num (.fin 5)) false).set .ok (.str "x")).error =
      some (.validationError "Expected type of number but recieved string") :=
  ⟨by decide, set_error_message (State.mk (.num (.fin 5)) false) .ok (.str "x") (by decide)⟩

/-- C4, counterexample: on a cell holding NaN, set (get ()) is not a
no-op, because NaN is strictly unequal to itself: the callback fires. -/
theorem set_noop_counterexample :
    ((State.mk (.num .nan) true).set .ok ((State.mk (.num .nan) true).get)).calls ≠ [] := by
  decide

/-- C4, amended: set with a value strictly equal to the current
value leaves the cell unchanged, invokes no callback and throws
nothing; set (get ()) is such a call whenever the current value is
not NaN, but not when it is NaN, since NaN !== NaN. -/
theorem set_noop (s : State) (cb : CbResult) (v : JSValue)
    (h : jsEq s.value v = true) :
    s.set cb v = { cell := s, calls := [], error := none } := by
  have hty := typeof_eq_of_jsEq s.value v h
  simp [State.set, State.verifyValue, hty, h]

/-- Witness for the amended C4 at a concrete input: setting 5 on a
cell holding 5 does nothing. -/
theorem set_noop_witness :
    jsEq (State.mk (.num (.fin 5)) true).value (.num (.fin 5)) = true ∧
    (State.mk (.num (.fin 5)) true).set .ok (.num (.fin 5)) =
      { cell := State.mk (.num (.fin 5)) true, calls := [], error := none } :=
  ⟨rfl, set_noop (State.mk (.num (.fin 5)) true) .ok (.num (.fin 5)) rfl⟩

/-- C5: createStateWith on any argument that is not an instance of
the State class throws an InstanceError whose message is exactly the
string conversion of the argument followed by " is not an instance
of the State class.", returns nothing, and never invokes the initial
effect, whether or not one was supplied. -/
theorem createStateWith_non_instance (v : JSValue) (hasEffect : Bool) :
    createStateWith (.nonState v) hasEffect =
      { result := none
        effectCalls := []
        error := some (.instanceError
          (jsToString v ++ " is not an instance of the State class.")) } :=
  rfl

/-- C6: createStateWith on a genuine State instance with an initial
effect supplied invokes the effect exactly once with the value get
returns at call time, discards its result, throws nothing, and
returns. -/
theorem createStateWith_effect (cell : State) :
    createStateWith (.stateInst cell) true =
      { result := some (.stateInst cell), effectCalls := [cell.get], error := none } :=
  rfl

/-- C7: createStateWith on a genuine State instance returns that
identical instance, constructs no new instance, throws nothing and
leaves the cell (its stored value and its onChange callback alike)
untouched, with or without an initial effect. -/
theorem createStateWith_frame (cell : State) (hasEffect : Bool) :
    (createStateWith (.stateInst cell) hasEffect).result = some (.stateInst cell) ∧
    (createStateWith (.stateInst cell) hasEffect).error = none := by
  cases hasEffect <;> simp [createStateWith]

/-- C8: on a cell holding NaN with a registered callback, set NaN
passes the type check and is always treated as a change: the value
is reassigned and the callback fires with NaN on every such call;
the no-op optimisation never applies. -/
theorem set_nan_always_changes (s : State)
    (hv : s.value = .num .nan)
    (hcb : s.onChange = true) :
    (s.set .ok (.num .nan)).error = none ∧
    (s.set .ok (.num .nan)).cell.value = .num .nan ∧
    (s.set .ok (.num .nan)).calls = [(.num .nan, (s.set .ok (.num .nan)).cell)] := by
  simp [State.set, State.verifyValue, hv, hcb, typeofJS, jsEq, numEq]

/-- Witness for C8 at a concrete input. -/
theorem set_nan_always_changes_witness :
    (State.mk (.num .nan) true).value = .num .nan ∧
    (State.mk (.num .nan) true).onChange = true ∧
    (((State.mk (.num .nan) true).set .ok (.num .nan)).error = none ∧
     ((State.mk (.num .nan) true).set .ok (.num .nan)).cell.value = .num .nan ∧
     ((State.mk (.num .nan) true).set .ok (.num .nan)).calls =
       [(.num .nan, ((State.mk (.num .nan) true).set .ok (.num .nan)).cell)]) :=
  ⟨rfl, rfl, set_nan_always_changes (State.mk (.num .nan) true) rfl rfl⟩

/-- C9: the type check compares only typeof tags: on a cell holding
a non-null object, any value whose typeof is "object" and which is
strictly unequal to the stored one, null and instances of any other
class included, passes verifyValue, replaces the stored value and
fires the callback. -/
theorem set_object_typeof (s : State) (i : Nat) (c : String) (v : JSValue)
    (hv : s.value = .obj i c)
    (hty : typeofJS v = "object")
    (hne : jsEq s.value v = false)
    (hcb : s.onChange = true) :
    (s.set .ok v).error = none ∧
    (s.set .ok v).cell.value = v ∧
    (s.set .ok v).calls = [(v, (s.set .ok v).cell)] := by
  have hobj : typeofJS (JSValue.obj i c) = "object" := rfl
  rw [hv] at hne
  simp [State.set, State.verifyValue, hv, hty, hne, hcb, hobj]

/-- Witness for C9 at a concrete input: a cell holding a plain
object accepts null, since typeof null is "object". -/
theorem set_object_typeof_witness :
    (State.mk (.obj 0 "Foo") true).value = .obj 0 "Foo" ∧
    typeofJS .null = "object" ∧
    jsEq (State.mk (.obj 0 "Foo") true).value .null = false ∧
    (State.mk (.obj 0 "Foo") true).onChange = true ∧
    (((State.mk (.obj 0 "Foo") true).set .ok .null).error = none ∧
     ((State.mk (.obj 0 "Foo") true).set .ok .null).cell.value = .null ∧
     ((State.mk (.obj 0 "Foo") true).set .ok .null).calls =
       [(.null, ((State.mk (.obj 0 "Foo") true).set .ok .null).cell)]) :=
  ⟨rfl, rfl, rfl, rfl,
    set_object_typeof (State.mk (.obj 0 "Foo") true) 0 "Foo" .null rfl rfl rfl rfl⟩

/-- C10: when the onChange callback throws during a value-changing
set, the exception propagates to the caller of set, yet the stored
value remains the new value: the assignment committed before the
callback ran and is not rolled back. -/
theorem set_throwing_callback (s : State) (v : JSValue) (e : JSError)
    (hcb : s.onChange = true)
    (hty : typeofJS v = typeofJS s.value)
    (hne : jsEq s.value v = false) :
    (s.set (.throws e) v).error = some e ∧
    (s.set (.throws e) v).cell.value = v := by
  simp [State.set, State.verifyValue, hty, hne, hcb]

/-- Witness for C10 at a concrete input. -/
theorem set_throwing_callback_witness :
    (State.mk (.num (.fin 5)) true).onChange = true ∧
    typeofJS (.num (.fin 6)) = typeofJS (State.mk (.num (.fin 5)) true).value ∧
    jsEq (State.mk (.num (.fin 5)) true).value (.num (.fin 6)) = false ∧
    (((State.mk (.num (.fin 5)) true).set
        (.throws (.validationError "boom")) (.num (.fin 6))).error =
          some (.validationError "boom") ∧
     ((State.mk (.num (.fin 5)) true).set
        (.throws (.validationError "boom")) (.num (.fin 6))).cell.value = .num (.fin 6)) :=
  ⟨rfl, rfl, rfl,
    set_throwing_callback (State.mk (.num (.fin 5)) true) (.num (.fin 6))
      (.validationError "boom") rfl rfl rfl⟩
